import Mathlib

/-!
Verification of the labgui GUI frame pipeline (src/gui.py).

This file gives a shallow embedding, in Lean 4, of the parts of `gui.py`
that the specification talks about: the display loop of `GuiFrame`, the
paint handler of `VideoWindow`, the acquisition loop of `TestSensor`, the
two bounded queues, `RoiPanel.validate`, `ColorPanel.set_range` /
`set_gamma` (with the gamma lookup table), `ViewPanel.select_source`,
`ViewPanel.sum_img`, and the `TextCtrl` wrapper.

Conventions of the embedding:
- Python floats read from text fields are modelled as exact rationals
  (`ℚ`); the code only clips, compares, and truncates them, so no
  rounding behaviour is lost.  A text-field value, which is the result
  of `to_float` (a float on success, the original string on failure),
  is modelled by the sum type `PyVal`.
- `numpy` arrays are lists of integers together with a shape; all the
  arithmetic performed on them here (sums and differences of 8/16-bit
  frames, at most 9999 of them) stays far below `2^53`, where `float64`
  arithmetic is exact, so `ℤ` entries are faithful.
- Exceptions are modelled with `Except`: `np.clip` on a string raises
  `TypeError`, `int()` on a non-numeric string raises `ValueError`.
- The external image-library primitives (`cv2.resize`, `cv2.cvtColor`)
  and the mutable per-stage callback lists are parameters of the model:
  the claims quantify over them.
- Blocking operations (`Event.wait`, blocking `Queue.get`/`put`) are
  modelled by partiality: a step that would block returns `none`.
-/

/-! ## Frames -/

/-- A video frame: bit depth (`uint16` vs `uint8`), whether it has a
colour channel (`len(shape) == 3` in the source), its height and width,
and its flattened pixel data. -/
structure DFrame where
  depth16 : Bool
  color : Bool
  h : Nat
  w : Nat
  data : List Nat

/-- Embedding of the 16-to-8-bit conversion in `GuiFrame.__display_loop`:
`if sensor_img.dtype == np.uint16: sensor_img = (sensor_img >> 8).astype(np.uint8)`. -/
def to8bit (img : DFrame) : DFrame :=
  if img.depth16 then
    ⟨false, img.color, img.h, img.w, img.data.map (fun p => (p >>> 8) % 256)⟩
  else img

/-- Running an ordered list of per-frame processing callbacks, as the
`for process in img_processes[...]` loops do. -/
def applyChain (ps : List (DFrame → DFrame)) (img : DFrame) : DFrame :=
  ps.foldl (fun i p => p i) img

/-- Embedding of the helper `to_rgb`: `cv2.cvtColor(img, BGR2RGB if
is_color(img) else GRAY2RGB)`.  The two library conversions are
parameters. -/
def to_rgb (cvtBGR2RGB cvtGRAY2RGB : DFrame → DFrame) (img : DFrame) : DFrame :=
  if img.color then cvtBGR2RGB img else cvtGRAY2RGB img

/-! ## Python scalar values and library scalar operations -/

/-- A Python exception class, as far as this code distinguishes them. -/
inductive PyErr where
  | valueError
  | typeError
deriving DecidableEq

/-- The value of a GUI text field as read through
`GuiPanel.__getattribute__`, i.e. the result of `to_float`: a float when
the text parses, otherwise the original string. -/
inductive PyVal where
  | num (q : ℚ)
  | str (s : String)
deriving DecidableEq

/-- Scalar `np.clip(v, lo, hi)` with numeric bounds: equivalent to
`min(hi, max(v, lo))`; on a string argument numpy raises a `TypeError`
(no ufunc loop for unicode), not a `ValueError`. -/
def np_clip_scalar (v : PyVal) (lo hi : ℚ) : Except PyErr ℚ :=
  match v with
  | .num q => .ok (min hi (max q lo))
  | .str _ => .error .typeError

/-- Scalar `np.clip(v, lo, hi)` where the lower bound is itself a field
value (used by `RoiPanel.validate`, e.g. `np.clip(self.w, x, 1)`); a
string in either position raises `TypeError`. -/
def np_clip_bounds (v lo : PyVal) (hi : ℚ) : Except PyErr ℚ :=
  match v, lo with
  | .num q, .num l => .ok (min hi (max q l))
  | _, _ => .error .typeError

/-- Python `int()` truncation toward zero on a float. -/
def pyTrunc (q : ℚ) : ℤ :=
  if 0 ≤ q then ⌊q⌋ else ⌈q⌉

/-- Python `int(v)`: truncates a float; raises `ValueError` on a string
that already failed `float()` (everything `int()` accepts, `float()`
accepts too, so a `PyVal.str` always fails). -/
def py_int (v : PyVal) : Except PyErr ℤ :=
  match v with
  | .num q => .ok (pyTrunc q)
  | .str _ => .error .valueError

/-! ## TextCtrl (claim C10) -/

/-- Model of the repository's `TextCtrl` wrapper: the stored maximum
length and the stored text. -/
structure TextCtrlM where
  maxLength : Nat
  value : String

/-- Embedding of `TextCtrl.SetMaxLength`: do the wx call, then save the
length as an attribute. -/
def TextCtrlM.SetMaxLength (c : TextCtrlM) (length : Nat) : TextCtrlM :=
  ⟨length, c.value⟩

/-- Embedding of `TextCtrl.GetMaxLength`: return the saved attribute. -/
def TextCtrlM.GetMaxLength (c : TextCtrlM) : Nat :=
  c.maxLength

/-- Embedding of `TextCtrl.SetValue`: truncate the string to
`self.MaxLength` (Python slice `value[:MaxLength]`) when the stored
length is truthy (nonzero), then store it. -/
def TextCtrlM.SetValue (c : TextCtrlM) (value : String) : TextCtrlM :=
  if c.maxLength ≠ 0 then ⟨c.maxLength, value.take c.maxLength⟩
  else ⟨c.maxLength, value⟩

/-- Embedding of `TextCtrl.__init__`: the wx control starts empty and
the constructor calls `SetMaxLength(length)`. -/
def TextCtrlM.init (length : Nat) : TextCtrlM :=
  TextCtrlM.SetMaxLength ⟨0, ""⟩ length

/-! ## RoiPanel.validate (claim C2) -/

/-- The four ROI text fields as read through the panel attribute
proxy. -/
structure RoiFields where
  x : PyVal
  y : PyVal
  w : PyVal
  h : PyVal
deriving DecidableEq

/-- Numeric view of a field value (strings read as 0; only used on
fields already known to be numeric). -/
def pvNum (v : PyVal) : ℚ :=
  match v with
  | .num q => q
  | .str _ => 0

/-- Embedding of `RoiPanel.validate`: reads `x, y`, then assigns
`self.x = np.clip(x, 0, 1)`, `self.y = np.clip(y, 0, 1)`,
`self.w = np.clip(self.w, x, 1)`, `self.h = np.clip(self.h, y, 1)`.
If any clip raises (`ValueError`/`TypeError` are both caught), `reset`
runs, which sets `x = y = 0.0`, `w = h = 1.0` (its nested
`set_roi`/`validate` call leaves these values unchanged, since clipping
is the identity on them) and the function returns `False`; partially
updated fields are overwritten by the reset.  Otherwise it returns
`True`. -/
def roi_validate (r : RoiFields) : RoiFields × Bool :=
  match np_clip_scalar r.x 0 1, np_clip_scalar r.y 0 1,
        np_clip_bounds r.w r.x 1, np_clip_bounds r.h r.y 1 with
  | .ok x, .ok y, .ok w, .ok h => (⟨.num x, .num y, .num w, .num h⟩, true)
  | _, _, _, _ => (⟨.num 0, .num 0, .num 1, .num 1⟩, false)

/-- A concrete ROI input: x = -3, y = 0, w = -1/2, h = 1. -/
def roiBad : RoiFields :=
  ⟨.num (-3), .num 0, .num (-(1/2)), .num 1⟩

/-! ## ColorPanel.set_range and set_gamma (claims C5, C6) -/

/-- A fixed non-numeric text-field input. -/
def badText : String := "abc"

/-- Embedding of `ColorPanel.set_range`: when the Range toggle is on,
`v = np.clip(int(self.range_val), 0, 255)` with `except ValueError:
v = 255`, then the field is set to `v`.  `int()` on a non-numeric
string raises exactly `ValueError`, which is caught.  The result is the
new field value, or the propagated exception. -/
def set_range (range_btn : Bool) (range_val : PyVal) : Except PyErr PyVal :=
  if range_btn then
    match py_int range_val with
    | .ok n => .ok (.num (min 255 (max (n : ℚ) 0)))
    | .error .valueError => .ok (.num 255)
    | .error .typeError => .error .typeError
  else .ok range_val

/-- Embedding of the control flow of `ColorPanel.set_gamma`: when the
Gamma toggle is on, `gamma = np.clip(self.gamma_val, 1.0, 10.0)` with
`except ValueError: gamma = 2.2`; then the lookup table is built (see
`gamma_lut`) and the field is set to `gamma`.  `np.clip` on a string
raises `TypeError`, which this handler does **not** catch, so it
propagates.  The result is the new field value, or the propagated
exception. -/
def set_gamma (gamma_btn : Bool) (gamma_val : PyVal) : Except PyErr PyVal :=
  if gamma_btn then
    match np_clip_scalar gamma_val 1 10 with
    | .ok g => .ok (.num g)
    | .error .valueError => .ok (.num (11/5))
    | .error .typeError => .error .typeError
  else .ok gamma_val

/-- Embedding of the gamma lookup table built by `ColorPanel.set_gamma`:
`(np.arange(0, 1, 1/256) ** (1/gamma) * 255 + 0.5).astype(np.uint8)`.
Entry `i` of `np.arange(0, 1, 1/256)` is exactly `i/256`; the float
power is modelled by the real power, and the `uint8` cast of the
(nonnegative, in-range) float is truncation, i.e. the floor. -/
noncomputable def gamma_lut (gamma : ℝ) (i : Fin 256) : ℤ :=
  ⌊((i.val : ℝ) / 256) ^ (1 / gamma) * 255 + 1 / 2⌋

/-! ## TestSensor._img_loop (claim C3) -/

/-- The arguments of a `queue.Queue.put` call: `block` (default `True`)
and `timeout` (default `None`).  Per the `queue` module, the call is
non-blocking exactly when `block` is false; with `block=True` and a
numeric `timeout` it blocks for up to `timeout` seconds and then raises
`queue.Full`. -/
structure PutCall where
  block : Bool
  timeout : Option ℚ

/-- Whether a `put` call is non-blocking. -/
def put_is_nonblocking (c : PutCall) : Bool := !c.block

/-- The `put` call made by `TestSensor._img_loop`:
`put_image(test_image(), timeout=self.timeout)` — `block` is left at
its default `True`, `timeout` is the sensor's timeout (default 1). -/
def testSensorPutCall (t : ℚ) : PutCall := ⟨true, some t⟩

/-- Outcome of one `_img_loop` iteration on the queue contents, at the
moment the `put` resolves: if the bounded queue has space the frame is
enqueued; if it is (still) full, `queue.Full` is raised and swallowed
(`except queue.Full: pass`), leaving the queue unchanged. -/
def img_loop_put (cap : Nat) (q : List DFrame) (img : DFrame) : List DFrame :=
  if q.length < cap then q ++ [img] else q

/-- The acquisition loop processing a list of produced frames in order. -/
def img_loop_run (cap : Nat) (q : List DFrame) (imgs : List DFrame) : List DFrame :=
  imgs.foldl (img_loop_put cap) q

/-! ## ViewPanel.select_source (claim C4) -/

/-- A device object as `select_source` sees it: an identifier and the
panels its `make_panels` would build (panels are modelled by type
tags). -/
structure DeviceM where
  id : Nat
  panels : List Nat
deriving DecidableEq

/-- The result of calling a stored device constructor
(`new_device(img_queue)`): a device, or a raised exception carrying
some detail code. -/
inductive CtorResult where
  | ok (d : DeviceM)
  | err (e : Nat)
deriving DecidableEq

/-- The state `select_source` manipulates: the entries of the source
`wx.Choice` (each with its constructor as client data), the current
device, the device panels, `layout['bottom']` (entry 0 is the view
panel itself), the frame queue, and the messages printed to standard
output (by detail code). -/
structure SelectState where
  sources : List CtorResult
  device : Option DeviceM
  devicePanels : List Nat
  bottom : List Nat
  imgQueue : List DFrame
  errLog : List Nat

/-- Embedding of the inner panel-removal loop of `select_source`:
`for i, gui_panel in enumerate(layout['bottom']): if isinstance(old_panel,
type(gui_panel)): layout['bottom'].pop(i)`.  Python's `enumerate` walks
the live list, so after `pop(i)` the element that slides into position
`i` is skipped. -/
def popMatching (tag : Nat) : List Nat → List Nat
  | [] => []
  | [p] => if p = tag then [] else [p]
  | p :: q :: rest2 =>
      if p = tag then q :: popMatching tag rest2
      else p :: popMatching tag (q :: rest2)

/-- Removing every old device panel's type from `layout['bottom']`. -/
def removeOldPanels (oldPanels : List Nat) (bottom : List Nat) : List Nat :=
  oldPanels.foldl (fun b tag => popMatching tag b) bottom

/-- Embedding of `ViewPanel.select_source` for a selected index `idx`:
reset toggles (outside this state), destroy the old device panels and
remove them from `layout['bottom']`, close and drop the old device
(leaving `self.device = None` in every case), purge the frame queue,
then call the stored constructor.  On an exception the error is
printed, the source entry is deleted (`del_source`), and the function
returns; on success the device is installed and its panels are inserted
at positions 1, 2, … of `layout['bottom']`. -/
def select_source (s : SelectState) (idx : Nat) : SelectState :=
  let bottom1 := removeOldPanels s.devicePanels s.bottom
  let base : SelectState := ⟨s.sources, none, [], bottom1, [], s.errLog⟩
  match s.sources.get? idx with
  | none => base
  | some (.err e) =>
      ⟨s.sources.eraseIdx idx, none, [], bottom1, [], s.errLog ++ [e]⟩
  | some (.ok d) =>
      ⟨s.sources, some d, d.panels,
        bottom1.take 1 ++ d.panels ++ bottom1.drop 1, [], s.errLog⟩

/-! ## ViewPanel.sum_img (claim C9) -/

/-- A numpy image dtype, as far as `sum_img` distinguishes them. -/
inductive Dtype where
  | u8
  | u16
deriving DecidableEq

/-- A numpy image frame: dtype, shape, flattened integer data. -/
structure NpImg where
  dtype : Dtype
  shape : List Nat
  data : List ℤ
deriving DecidableEq

/-- A numpy `float64` array as used for `sum_final`; every value it
ever holds here is an integer (sums of at most 9999 16-bit frames stay
well below `2^53`, where `float64` is exact). -/
structure FloatArr where
  shape : List Nat
  data : List ℤ
deriving DecidableEq

/-- A well-formed numpy image: the flattened data has exactly
`shape.prod` entries. -/
def NpImg.wf (g : NpImg) : Prop :=
  g.data.length = g.shape.prod

/-- The rolling-sum state of `ViewPanel`. -/
structure SumState where
  sum_dtype : Option Dtype
  sum_final : Option FloatArr
  sum_frames : List NpImg

/-- Elementwise sum of two equal-length arrays
(`sum_final += img.astype(np.float64)`). -/
def addD (a b : List ℤ) : List ℤ := List.zipWith (· + ·) a b

/-- Elementwise difference (`sum_final -= sum_frames.pop(0)`). -/
def subD (a b : List ℤ) : List ℤ := List.zipWith (· - ·) a b

/-- The all-zero array of a given length. -/
def zeros (len : Nat) : List ℤ := List.replicate len 0

/-- Elementwise `float64` sum of a list of frames (of common data
length `len`). -/
def elemSum (len : Nat) (frames : List NpImg) : List ℤ :=
  frames.foldl (fun acc g => addD acc g.data) (zeros len)

/-- Embedding of the `while len(sum_frames) > sum_n:
sum_final -= sum_frames.pop(0)` loop of `sum_img`.  (For the values
reaching it, `sum_n ≥ 1`, so the loop always stops with a nonempty
list; the model's extra `[]` base case is unreachable there.) -/
def trim (n : ℚ) : List NpImg → List ℤ → List ℤ × List NpImg
  | [], final => (final, [])
  | f :: rest, final =>
      if n < ((f :: rest).length : ℚ) then trim n rest (subD final f.data)
      else (final, f :: rest)

/-- Embedding of `ViewPanel.sum_img`'s effect on the rolling-sum state.
With the Add toggle on: if `sum_final` is `None`, or `sum_n` is a
string, or `sum_n < 1`, or the shape or dtype changed, the sum is
restarted from the current image (`sum_final = img.astype(np.float64)`,
`sum_frames = [img.copy()]`); otherwise the image is added to
`sum_final` and appended to `sum_frames`, and frames are popped from
the front while there are more than `sum_n`.  With the toggle off, all
three attributes are cleared.  (The displayed image the function
returns is rebuilt from `sum_final` by a dtype/rescale step that does
not touch this state and is not modelled here.) -/
def sum_img (sum_img_btn : Bool) (sum_n : PyVal) (s : SumState) (img : NpImg) :
    SumState :=
  if sum_img_btn then
    match s.sum_final, sum_n with
    | some f, .num q =>
        if q < 1 ∨ f.shape ≠ img.shape ∨ s.sum_dtype ≠ some img.dtype then
          ⟨some img.dtype, some ⟨img.shape, img.data⟩, [img]⟩
        else
          let p := trim q (s.sum_frames ++ [img]) (addD f.data img.data)
          ⟨s.sum_dtype, some ⟨f.shape, p.1⟩, p.2⟩
    | _, _ => ⟨some img.dtype, some ⟨img.shape, img.data⟩, [img]⟩
  else ⟨none, none, []⟩

/-- The invariant claimed for the rolling sum: when a sum is active,
`sum_final` is the elementwise `float64` sum of the frames in
`sum_frames` (together with the length bookkeeping that makes
"elementwise" meaningful); when no sum is active, no frames are
stored. -/
def SumInv (s : SumState) : Prop :=
  match s.sum_final with
  | none => s.sum_frames = []
  | some f =>
      f.data = elemSum f.shape.prod s.sum_frames ∧
      s.sum_frames ≠ [] ∧
      f.data.length = f.shape.prod ∧
      ∀ g ∈ s.sum_frames, g.data.length = f.shape.prod

/-! ## The two pipeline queues of GuiFrame (claim C8) -/

/-- Capacity of `GuiFrame.img_queue`, created as `queue.Queue(1)`. -/
def imgQueueCap : Nat := 1

/-- Capacity of `GuiFrame.display_queue`, created as `queue.Queue(1)`. -/
def displayQueueCap : Nat := 1

/-- The joint contents of the two pipeline queues. -/
structure QState where
  imgQ : List DFrame
  dispQ : List DFrame

/-- An operation on the pipeline queues: a put or a (blocking) get on
either queue, by the sensor thread, the display thread, or the paint
handler. -/
inductive QOp where
  | putImg (f : DFrame)
  | getImg
  | putDisp (f : DFrame)
  | getDisp

/-- Queue-discipline semantics of one operation: a put enqueues only
when the queue is below its capacity (a full queue blocks the caller or
raises `queue.Full`, leaving the contents unchanged either way); a get
removes the head when there is one (an empty queue blocks or raises
`queue.Empty`, leaving it unchanged). -/
def qstep (s : QState) (op : QOp) : QState :=
  match op with
  | .putImg f => if s.imgQ.length < imgQueueCap then ⟨s.imgQ ++ [f], s.dispQ⟩ else s
  | .getImg => ⟨s.imgQ.tail, s.dispQ⟩
  | .putDisp f => if s.dispQ.length < displayQueueCap then ⟨s.imgQ, s.dispQ ++ [f]⟩ else s
  | .getDisp => ⟨s.imgQ, s.dispQ.tail⟩

/-- Both queues start empty (`GuiFrame.__init__`). -/
def qinit : QState := ⟨[], []⟩

/-- The queue contents after a sequence of operations from the initial
state. -/
def qrun (ops : List QOp) : QState := ops.foldl qstep qinit

/-! ## GuiFrame.__display_loop (claim C1) -/

/-- The state one iteration of the display loop reads and writes: the
`img_show` event, the Full toggle (which selects the target window),
the two queues, the saved full-resolution copy `self.image`, and the
frame counter. -/
structure DispState where
  imgShow : Bool
  fullBtn : Bool
  imgQueue : List DFrame
  displayQueue : List DFrame
  image : DFrame
  frames : Nat

/-- Embedding of one iteration of `GuiFrame.__display_loop`.  The
callback lists `full` and `resized`, the library primitives
(`cv2.resize` and the two `cv2.cvtColor` conversions), and the two
candidate window sizes are parameters.  The iteration blocks (`none`)
while `img_show` is clear, while the frame queue is empty, or while the
capacity-1 display queue has no room for the blocking `put` at the end.
Otherwise it takes one frame; runs the `full` callbacks in order; saves
a copy as `self.image`; converts 16-bit data to 8-bit; resizes to the
target window's size; runs the `resized` callbacks in order; refreshes
the window (a GUI call, no state here); and puts the RGB conversion of
the result on the display queue, incrementing the frame counter. -/
def display_step (full resized : List (DFrame → DFrame))
    (resize : Nat × Nat → DFrame → DFrame)
    (cvtBGR2RGB cvtGRAY2RGB : DFrame → DFrame)
    (mainSize fullSize : Nat × Nat) (s : DispState) : Option DispState :=
  if s.imgShow then
    match s.imgQueue with
    | [] => none
    | sensor0 :: rest =>
        if s.displayQueue.length < displayQueueCap then
          let sensor1 := applyChain full sensor0
          let sensor2 := to8bit sensor1
          let winSize := if s.fullBtn then fullSize else mainSize
          let display1 := resize winSize sensor2
          let display2 := applyChain resized display1
          some ⟨s.imgShow, s.fullBtn, rest,
                s.displayQueue ++ [to_rgb cvtBGR2RGB cvtGRAY2RGB display2],
                sensor1, s.frames + 1⟩
        else none
  else none

/-- The per-frame pipeline exactly as the claim words it: the `full`
callbacks in list order, then 16-to-8-bit conversion, then the resize
to the target window's size, then the `resized` callbacks in list
order, then the RGB conversion. -/
def claimedDisplayPipeline (full resized : List (DFrame → DFrame))
    (resize : Nat × Nat → DFrame → DFrame)
    (cvtBGR2RGB cvtGRAY2RGB : DFrame → DFrame)
    (winSize : Nat × Nat) (img : DFrame) : DFrame :=
  to_rgb cvtBGR2RGB cvtGRAY2RGB
    (applyChain resized (resize winSize (to8bit (applyChain full img))))

/-! ## VideoWindow.OnPaint (claim C7) -/

/-- An observable drawing action of the paint handler: the bitmap blit,
or the run of the `i`-th draw-context callback. -/
inductive DrawEv where
  | blit
  | dcProc (i : Nat)
deriving DecidableEq

/-- Embedding of `VideoWindow.OnPaint`: try to get one frame from the
display queue (a `queue.Empty` after the 0.1 s timeout returns with
nothing drawn); skip the frame without drawing if the window size,
`(W, H)`, differs from the frame's reversed numpy shape `(w, h)`;
otherwise blit the bitmap and then run every draw-context callback in
list order on the same draw context.  The result is the remaining
queue and the trace of drawing actions, in order. -/
def onPaint (winSize : Nat × Nat) (nProcs : Nat) (q : List DFrame) :
    List DFrame × List DrawEv :=
  match q with
  | [] => ([], [])
  | img :: rest =>
      if winSize = (img.w, img.h) then
        (rest, DrawEv.blit :: (List.range nProcs).map DrawEv.dcProc)
      else (rest, [])

/-! ## Concrete inputs used by the witnesses below -/

/-- A concrete (empty, 1x1, 8-bit, grayscale) frame. -/
def f0 : DFrame := ⟨false, false, 1, 1, []⟩

/-- A concrete text value. -/
def sampleText : String := "abcdef"

/-- A concrete well-behaved ROI input. -/
def roiGood : RoiFields := ⟨.num (1/2), .num 0, .num (3/4), .num 1⟩

/-- A concrete `select_source` state whose only source has a failing
constructor (detail code 7); `layout['bottom']` holds just the view
panel (tag 0). -/
def selBad : SelectState := ⟨[CtorResult.err 7], none, [], [0], [], []⟩

/-- A concrete one-pixel 8-bit image. -/
def img9 : NpImg := ⟨.u8, [1], [5]⟩

/-- The initial (cleared) rolling-sum state. -/
def sum0 : SumState := ⟨none, none, []⟩

/-- A trivial resize primitive used as a concrete library parameter. -/
def idResize : Nat × Nat → DFrame → DFrame := fun _ img => img

/-- A trivial colour-conversion primitive used as a concrete library
parameter. -/
def idCvt : DFrame → DFrame := fun img => img

/-- A concrete display-loop state: `img_show` set, not fullscreen, one
queued frame, empty display queue. -/
def dispS0 : DispState := ⟨true, false, [f0], [], f0, 0⟩

/-! # Theorems -/

/-! ## Claim C10: TextCtrl stores truncated values and the last max length -/

/-- Claim C10: for every string value, `TextCtrl.SetValue` with a
nonzero `MaxLength` L stores exactly the first L characters of the
value, and with `MaxLength` 0 stores the value unchanged;
`GetMaxLength` returns the last length passed to `SetMaxLength` or to
the constructor. -/
theorem C10_textctrl (c : TextCtrlM) (v : String) (L : Nat) :
    (c.maxLength ≠ 0 → (c.SetValue v).value = v.take c.maxLength) ∧
    (c.maxLength = 0 → (c.SetValue v).value = v) ∧
    (c.SetMaxLength L).GetMaxLength = L ∧
    (TextCtrlM.init L).GetMaxLength = L := by
  refine ⟨fun h => ?_, fun h => ?_, rfl, rfl⟩
  · simp [TextCtrlM.SetValue, h]
  · simp [TextCtrlM.SetValue, h]

/-- Witness for C10 at concrete controls with max lengths 3 and 0. -/
theorem C10_textctrl_witness :
    ((3 : Nat) ≠ 0 ∧ ((⟨3, ""⟩ : TextCtrlM).SetValue sampleText).value = sampleText.take 3) ∧
    ((0 : Nat) = 0 ∧ ((⟨0, ""⟩ : TextCtrlM).SetValue sampleText).value = sampleText) :=
  ⟨⟨by decide, (C10_textctrl ⟨3, ""⟩ sampleText 0).1 (by decide)⟩,
   ⟨rfl, (C10_textctrl ⟨0, ""⟩ sampleText 0).2.1 rfl⟩⟩

/-! ## Claim C7: the paint handler -/

/-- Claim C7: on a paint event, at most one frame is taken from the
display queue; an empty queue (timeout) skips the paint with nothing
drawn; a frame whose dimensions do not match the window size is
dropped without drawing; otherwise the blit happens first and then
each draw-context callback runs in list order. -/
theorem C7_onpaint (winSize : Nat × Nat) (n : Nat) (img : DFrame)
    (rest : List DFrame) :
    onPaint winSize n [] = ([], []) ∧
    (onPaint winSize n (img :: rest)).1 = rest ∧
    (onPaint winSize n (img :: rest)).2 =
      (if winSize = (img.w, img.h) then
        DrawEv.blit :: (List.range n).map DrawEv.dcProc
      else []) := by
  refine ⟨rfl, ?_, ?_⟩
  · simp only [onPaint]; split <;> rfl
  · simp only [onPaint]; split <;> rfl

/-! ## Claim C8: both pipeline queues are single-slot -/

/-- One queue operation keeps both queues within one element. -/
theorem qstep_len_le (s : QState) (op : QOp) (h1 : s.imgQ.length ≤ 1)
    (h2 : s.dispQ.length ≤ 1) :
    (qstep s op).imgQ.length ≤ 1 ∧ (qstep s op).dispQ.length ≤ 1 := by
  cases op with
  | putImg f =>
      by_cases h : s.imgQ.length < imgQueueCap
      · simp only [qstep, if_pos h]
        refine ⟨?_, h2⟩
        have h' : s.imgQ.length < 1 := h
        simp only [List.length_append, List.length_cons, List.length_nil]
        omega
      · simp only [qstep, if_neg h]; exact ⟨h1, h2⟩
  | getImg =>
      refine ⟨?_, h2⟩
      simp only [qstep, List.length_tail]
      omega
  | putDisp f =>
      by_cases h : s.dispQ.length < displayQueueCap
      · simp only [qstep, if_pos h]
        refine ⟨h1, ?_⟩
        have h' : s.dispQ.length < 1 := h
        simp only [List.length_append, List.length_cons, List.length_nil]
        omega
      · simp only [qstep, if_neg h]; exact ⟨h1, h2⟩
  | getDisp =>
      refine ⟨h1, ?_⟩
      simp only [qstep, List.length_tail]
      omega

/-- Any sequence of queue operations keeps both queues within one
element, starting from a state already within one element. -/
theorem qrun_aux (ops : List QOp) : ∀ s : QState, s.imgQ.length ≤ 1 →
    s.dispQ.length ≤ 1 →
    (ops.foldl qstep s).imgQ.length ≤ 1 ∧ (ops.foldl qstep s).dispQ.length ≤ 1 := by
  induction ops with
  | nil => intro s h1 h2; exact ⟨h1, h2⟩
  | cons op ops ih =>
      intro s h1 h2
      have h := qstep_len_le s op h1 h2
      simpa using ih (qstep s op) h.1 h.2

/-- Claim C8: both pipeline queues are created with capacity 1, so at
every reachable state each holds at most one frame. -/
theorem C8_queues : imgQueueCap = 1 ∧ displayQueueCap = 1 ∧
    ∀ ops : List QOp, (qrun ops).imgQ.length ≤ 1 ∧ (qrun ops).dispQ.length ≤ 1 :=
  ⟨rfl, rfl, fun ops => qrun_aux ops qinit (by simp [qinit]) (by simp [qinit])⟩

/-! ## Claim C3: the sensor put is a blocking put with timeout; frames
are dropped silently when the queue stays full -/

/-- Counterexample to claim C3 as stated: the `put` issued by
`TestSensor._img_loop` (with the default timeout, 1) is not a
non-blocking put — it leaves `block` at its default `True` and passes a
timeout, so it blocks for up to the timeout. -/
theorem C3_counterexample : put_is_nonblocking (testSensorPutCall 1) = false := rfl

/-- Claim C3 (amended): the sensor's `put` blocks for up to the
configured timeout; when the queue is (still) full the `queue.Full`
exception is swallowed, the queue's contents are unchanged, and the
acquisition loop continues with the next frame; when there is room the
frame is enqueued. -/
theorem C3_amended (t : ℚ) (cap : Nat) (q : List DFrame) (img : DFrame)
    (rest : List DFrame) :
    (testSensorPutCall t).block = true ∧
    (cap ≤ q.length → img_loop_put cap q img = q ∧
      img_loop_run cap q (img :: rest) = img_loop_run cap q rest) ∧
    (q.length < cap → img_loop_put cap q img = q ++ [img]) := by
  refine ⟨rfl, fun h => ?_, fun h => ?_⟩
  · have h' : ¬ q.length < cap := not_lt.mpr h
    refine ⟨by simp [img_loop_put, h'], ?_⟩
    simp [img_loop_run, img_loop_put, h']
  · simp [img_loop_put, h]

/-- Witness for C3 (amended) on a full and on a non-full capacity-1
queue. -/
theorem C3_amended_witness :
    img_loop_put 1 [f0] f0 = [f0] ∧ img_loop_put 1 [] f0 = [] ++ [f0] :=
  ⟨((C3_amended 1 1 [f0] f0 []).2.1 (by decide)).1,
   (C3_amended 1 1 [] f0 []).2.2 (by decide)⟩

/-! ## Claim C5: malformed text input in the range / gamma handlers -/

/-- Claim C5 evaluated at the failing input: with the toggles enabled
and the non-numeric field text `"abc"`, `set_range` resets the field to
255 without raising, as the claim says — but `set_gamma` raises an
uncaught `TypeError` (its `except` clause only catches `ValueError`,
while `np.clip` on a string raises `TypeError`), so the gamma field is
not reset to 2.2 and the handler does raise. -/
theorem C5_malformed_input :
    set_range true (PyVal.str badText) = Except.ok (PyVal.num 255) ∧
    set_gamma true (PyVal.str badText) = Except.error PyErr.typeError :=
  ⟨rfl, rfl⟩

/-! ## Claim C2: ROI clamping -/

/-- Counterexample to claim C2 as stated: on the input
x = -3, y = 0, w = -1/2, h = 1, `RoiPanel.validate` returns `True`
(no clip raises), but the clamped fields have x = 0 and w = -1/2, so
x ≤ w fails — `w` is clipped with the unclamped `x` as its lower
bound. -/
theorem C2_counterexample :
    (roi_validate roiBad).2 = true ∧
    ¬ (pvNum (roi_validate roiBad).1.x ≤ pvNum (roi_validate roiBad).1.w) := by
  refine ⟨rfl, ?_⟩
  simp only [roiBad, roi_validate, np_clip_scalar, np_clip_bounds, pvNum]
  norm_num [min_def, max_def]

/-- Claim C2 (amended): after `RoiPanel.validate` returns `True` the
clamped fields satisfy x ∈ [0,1] and y ∈ [0,1]; the invariant x ≤ w
(resp. y ≤ h) holds whenever the entered x (resp. y) was
nonnegative. -/
theorem C2_amended (r : RoiFields) (h : (roi_validate r).2 = true) :
    (0 ≤ pvNum (roi_validate r).1.x ∧ pvNum (roi_validate r).1.x ≤ 1) ∧
    (0 ≤ pvNum (roi_validate r).1.y ∧ pvNum (roi_validate r).1.y ≤ 1) ∧
    (0 ≤ pvNum r.x → pvNum (roi_validate r).1.x ≤ pvNum (roi_validate r).1.w) ∧
    (0 ≤ pvNum r.y → pvNum (roi_validate r).1.y ≤ pvNum (roi_validate r).1.h) := by
  obtain ⟨x, y, w, hgt⟩ := r
  cases x with
  | str sx => simp [roi_validate, np_clip_scalar] at h
  | num qx =>
  cases y with
  | str sy => simp [roi_validate, np_clip_scalar] at h
  | num qy =>
  cases w with
  | str sw => simp [roi_validate, np_clip_scalar, np_clip_bounds] at h
  | num qw =>
  cases hgt with
  | str sh => simp [roi_validate, np_clip_scalar, np_clip_bounds] at h
  | num qh =>
  simp only [roi_validate, np_clip_scalar, np_clip_bounds, pvNum]
  refine ⟨⟨le_min (by norm_num) (le_max_right _ _), min_le_left _ _⟩,
          ⟨le_min (by norm_num) (le_max_right _ _), min_le_left _ _⟩,
          fun h0 => ?_, fun h0 => ?_⟩
  · rw [max_eq_left h0]
    exact min_le_min le_rfl (le_max_right _ _)
  · rw [max_eq_left h0]
    exact min_le_min le_rfl (le_max_right _ _)

/-- Witness for C2 (amended) at a concrete well-behaved input. -/
theorem C2_amended_witness :
    (roi_validate roiGood).2 = true ∧
    ((0 ≤ pvNum (roi_validate roiGood).1.x ∧ pvNum (roi_validate roiGood).1.x ≤ 1) ∧
     (0 ≤ pvNum (roi_validate roiGood).1.y ∧ pvNum (roi_validate roiGood).1.y ≤ 1) ∧
     (0 ≤ pvNum roiGood.x → pvNum (roi_validate roiGood).1.x ≤ pvNum (roi_validate roiGood).1.w) ∧
     (0 ≤ pvNum roiGood.y → pvNum (roi_validate roiGood).1.y ≤ pvNum (roi_validate roiGood).1.h)) :=
  ⟨rfl, C2_amended roiGood rfl⟩

/-! ## Claim C4: device-construction failure handling in select_source -/

/-- The inner panel-removal pass only ever removes elements. -/
theorem popMatching_sublist (tag : Nat) : ∀ l : List Nat, List.Sublist (popMatching tag l) l
  | [] => by simp [popMatching]
  | [p] => by
      by_cases h : p = tag <;> simp [popMatching, h]
  | p :: q :: rest2 => by
      by_cases h : p = tag
      · simp only [popMatching, if_pos h]
        exact List.Sublist.cons p (List.Sublist.cons₂ q (popMatching_sublist tag rest2))
      · simp only [popMatching, if_neg h]
        exact List.Sublist.cons₂ p (popMatching_sublist tag (q :: rest2))

/-- Removing all old device panels only ever removes elements from
`layout['bottom']`. -/
theorem removeOldPanels_sublist (old : List Nat) : ∀ b : List Nat,
    List.Sublist (removeOldPanels old b) b := by
  induction old with
  | nil => intro b; exact List.Sublist.refl b
  | cons t ts ih =>
      intro b
      exact (ih (popMatching t b)).trans (popMatching_sublist t b)

/-- Claim C4: if the stored constructor for the selected source raises,
`select_source` leaves the device `None`, prints the error, deletes the
offending source entry, purges the frame queue, and adds no new device
panels to the layout (the bottom layout only loses the old ones). -/
theorem C4_select_source (s : SelectState) (idx : Nat) (e : Nat)
    (h : s.sources.get? idx = some (CtorResult.err e)) :
    (select_source s idx).device = none ∧
    (select_source s idx).devicePanels = [] ∧
    (select_source s idx).sources = s.sources.eraseIdx idx ∧
    (select_source s idx).errLog = s.errLog ++ [e] ∧
    (select_source s idx).bottom = removeOldPanels s.devicePanels s.bottom ∧
    List.Sublist (select_source s idx).bottom s.bottom ∧
    (select_source s idx).imgQueue = [] := by
  simp only [select_source, h]
  exact ⟨trivial, trivial, trivial, trivial, trivial,
    removeOldPanels_sublist _ _, trivial⟩

/-- Witness for C4 at a concrete state whose single source fails to
construct. -/
theorem C4_select_source_witness :
    selBad.sources.get? 0 = some (CtorResult.err 7) ∧
    ((select_source selBad 0).device = none ∧
     (select_source selBad 0).devicePanels = [] ∧
     (select_source selBad 0).sources = selBad.sources.eraseIdx 0 ∧
     (select_source selBad 0).errLog = selBad.errLog ++ [7] ∧
     (select_source selBad 0).bottom = removeOldPanels selBad.devicePanels selBad.bottom ∧
     List.Sublist (select_source selBad 0).bottom selBad.bottom ∧
     (select_source selBad 0).imgQueue = []) :=
  ⟨rfl, C4_select_source selBad 0 7 rfl⟩

/-! ## Claim C1: the display loop -/

/-- Claim C1: each display-loop iteration blocks until `img_show` is
set (and until a frame is available, and until the capacity-1 display
queue has room for the final put), then pulls exactly one frame and
sends through the claimed pipeline — `full` callbacks in order, 16-bit
to 8-bit conversion, resize to the target window's size, `resized`
callbacks in order, RGB conversion — putting the result on the display
queue (and saving the full-resolution copy and bumping the frame
counter on the way). -/
theorem C1_display_loop (full resized : List (DFrame → DFrame))
    (resize : Nat × Nat → DFrame → DFrame)
    (cvtB cvtG : DFrame → DFrame) (mainSize fullSize : Nat × Nat)
    (s : DispState) :
    (s.imgShow = false →
      display_step full resized resize cvtB cvtG mainSize fullSize s = none) ∧
    (s.imgShow = true → s.imgQueue = [] →
      display_step full resized resize cvtB cvtG mainSize fullSize s = none) ∧
    (∀ img rest, s.imgShow = true → s.imgQueue = img :: rest →
      s.displayQueue = [] →
      display_step full resized resize cvtB cvtG mainSize fullSize s =
        some ⟨true, s.fullBtn, rest,
          [claimedDisplayPipeline full resized resize cvtB cvtG
            (if s.fullBtn then fullSize else mainSize) img],
          applyChain full img, s.frames + 1⟩) := by
  refine ⟨fun h => ?_, fun h1 h2 => ?_, fun img rest h1 h2 h3 => ?_⟩
  · simp [display_step, h]
  · simp [display_step, h1, h2]
  · simp [display_step, h1, h2, h3, displayQueueCap, claimedDisplayPipeline]

/-- Witness for C1: one frame flows through a concrete instantiation of
the loop. -/
theorem C1_display_loop_witness :
    display_step [] [] idResize idCvt idCvt (4, 3) (5, 6) dispS0 =
      some ⟨true, false, [],
        [claimedDisplayPipeline [] [] idResize idCvt idCvt (4, 3) f0],
        applyChain [] f0, 1⟩ :=
  (C1_display_loop [] [] idResize idCvt idCvt (4, 3) (5, 6) dispS0).2.2
    f0 [] rfl rfl rfl

/-! ## Claim C6: the gamma lookup table -/

/-- Claim C6: for every gamma clamped into [1, 10], the 256-entry gamma
lookup table built by `set_gamma` is monotonically non-decreasing, and
its first entry is 0. -/
theorem C6_gamma_lut (g : ℝ) (h1 : 1 ≤ g) (h10 : g ≤ 10) :
    (∀ i j : Fin 256, i ≤ j → gamma_lut g i ≤ gamma_lut g j) ∧
    gamma_lut g 0 = 0 := by
  have hg : (0 : ℝ) < g := lt_of_lt_of_le one_pos h1
  have hexp : (0 : ℝ) ≤ 1 / g := by positivity
  constructor
  · intro i j hij
    apply Int.floor_le_floor
    have hx0 : (0 : ℝ) ≤ (i.val : ℝ) / 256 := by positivity
    have hxy : (i.val : ℝ) / 256 ≤ (j.val : ℝ) / 256 := by
      have : (i.val : ℝ) ≤ (j.val : ℝ) := by exact_mod_cast hij
      linarith
    have hpow := Real.rpow_le_rpow hx0 hxy hexp
    nlinarith [hpow]
  · have hz : ((0 : ℝ)) ^ (1 / g) = 0 :=
      Real.zero_rpow (ne_of_gt (by positivity))
    simp only [gamma_lut, Fin.val_zero, Nat.cast_zero, zero_div, hz, zero_mul,
      zero_add]
    rw [Int.floor_eq_zero_iff]
    constructor <;> norm_num

/-- Witness for C6 at gamma = 2. -/
theorem C6_gamma_lut_witness :
    ((1 : ℝ) ≤ 2 ∧ (2 : ℝ) ≤ 10) ∧
    ((∀ i j : Fin 256, i ≤ j → gamma_lut 2 i ≤ gamma_lut 2 j) ∧
      gamma_lut 2 0 = 0) :=
  ⟨⟨by norm_num, by norm_num⟩, C6_gamma_lut 2 (by norm_num) (by norm_num)⟩

/-! ## Claim C9: the rolling-sum invariant of sum_img -/

/-- Adding the all-zero array on the left is the identity. -/
theorem addD_zeros (len : Nat) (a : List ℤ) (h : a.length = len) :
    addD (zeros len) a = a := by
  subst h
  induction a with
  | nil => rfl
  | cons x xs ih =>
      simp only [addD, zeros, List.length_cons, List.replicate_succ,
        List.zipWith_cons_cons, zero_add] at ih ⊢
      rw [ih]

/-- Subtracting an array from itself gives the all-zero array. -/
theorem subD_self (a : List ℤ) : subD a a = zeros a.length := by
  induction a with
  | nil => rfl
  | cons x xs ih =>
      simp only [subD, zeros, List.length_cons, List.replicate_succ,
        List.zipWith_cons_cons, sub_self] at ih ⊢
      rw [ih]

/-- Elementwise subtraction commutes past an elementwise addition. -/
theorem subD_addD_comm : ∀ a b c : List ℤ,
    subD (addD a c) b = addD (subD a b) c := by
  intro a
  induction a with
  | nil => intro b c; cases b <;> cases c <;> rfl
  | cons x xs ih =>
      intro b c
      cases b with
      | nil => simp [addD, subD]
      | cons y ys =>
          cases c with
          | nil => simp [addD, subD]
          | cons z zs =>
              simp only [addD, subD, List.zipWith_cons_cons, List.cons.injEq]
              exact ⟨by omega, ih ys zs⟩

/-- Elementwise subtraction pushes through the running-sum fold. -/
theorem subD_foldl : ∀ (l : List NpImg) (a b : List ℤ),
    subD (l.foldl (fun acc g => addD acc g.data) a) b =
      l.foldl (fun acc g => addD acc g.data) (subD a b) := by
  intro l
  induction l with
  | nil => intro a b; rfl
  | cons f fs ih =>
      intro a b
      simp only [List.foldl_cons]
      rw [ih, subD_addD_comm]

/-- Peeling the first frame off an elementwise sum. -/
theorem elemSum_cons (len : Nat) (f : NpImg) (rest : List NpImg)
    (h : f.data.length = len) :
    elemSum len (f :: rest) =
      rest.foldl (fun acc g => addD acc g.data) f.data := by
  simp only [elemSum, List.foldl_cons, addD_zeros len f.data h]

/-- Subtracting the first frame from the sum of a list of frames gives
the sum of the rest. -/
theorem elemSum_cons_sub (len : Nat) (f : NpImg) (rest : List NpImg)
    (h : f.data.length = len) :
    subD (elemSum len (f :: rest)) f.data = elemSum len rest := by
  rw [elemSum_cons len f rest h, subD_foldl, subD_self, h]
  rfl

/-- Appending one frame to an elementwise sum. -/
theorem elemSum_append_one (len : Nat) (frames : List NpImg) (img : NpImg) :
    elemSum len (frames ++ [img]) = addD (elemSum len frames) img.data := by
  simp [elemSum, List.foldl_append]

/-- The running-sum fold preserves the data length. -/
theorem foldl_addD_length (len : Nat) : ∀ (l : List NpImg) (a : List ℤ),
    a.length = len → (∀ g ∈ l, g.data.length = len) →
    (l.foldl (fun acc g => addD acc g.data) a).length = len := by
  intro l
  induction l with
  | nil => intro a ha _; exact ha
  | cons f fs ih =>
      intro a ha hl
      simp only [List.foldl_cons]
      apply ih
      · simp only [addD, List.length_zipWith, ha, hl f (by simp)]
        exact Nat.min_self len
      · intro g hg; exact hl g (List.mem_cons_of_mem _ hg)

/-- The elementwise sum of frames of common length has that length. -/
theorem elemSum_length (len : Nat) (l : List NpImg)
    (h : ∀ g ∈ l, g.data.length = len) : (elemSum len l).length = len :=
  foldl_addD_length len l (zeros len) (by simp [zeros]) h

/-- The trimming loop of `sum_img` preserves the sum invariant, keeps
the frame list nonempty, and stops with at most `n` frames (for
`n ≥ 1`). -/
theorem trim_spec (n : ℚ) (len : Nat) (h1 : 1 ≤ n) :
    ∀ (frames : List NpImg) (final : List ℤ),
      frames ≠ [] →
      final = elemSum len frames →
      (∀ g ∈ frames, g.data.length = len) →
      (trim n frames final).1 = elemSum len (trim n frames final).2 ∧
      (trim n frames final).2 ≠ [] ∧
      (∀ g ∈ (trim n frames final).2, g.data.length = len) ∧
      (((trim n frames final).2.length : ℚ) ≤ n) := by
  intro frames
  induction frames with
  | nil => intro final hne _ _; exact absurd rfl hne
  | cons f rest ih =>
      intro final hne hfin hlen
      by_cases hq : n < (((f :: rest).length : Nat) : ℚ)
      · have hrest : rest ≠ [] := by
          intro h0
          subst h0
          simp only [List.length_cons, List.length_nil, Nat.cast_one] at hq
          exact absurd hq (not_lt.mpr h1)
        have hsub : subD final f.data = elemSum len rest := by
          rw [hfin]
          exact elemSum_cons_sub len f rest (hlen f (by simp))
        have hrec := ih (subD final f.data) hrest hsub
          (fun g hg => hlen g (List.mem_cons_of_mem _ hg))
        simpa only [trim, if_pos hq] using hrec
      · simp only [trim, if_neg hq]
        exact ⟨hfin, hne, hlen, not_lt.mp hq⟩

/-- Claim C9: with the Add toggle on, a numeric `sum_n ≥ 1`, and an
image matching the stored shape and dtype, `sum_img` preserves the
invariant that `sum_final` is the elementwise `float64` sum of the
frames in `sum_frames`, and leaves at most `sum_n` frames stored; with
the toggle off it clears `sum_dtype`, `sum_final`, and `sum_frames`. -/
theorem C9_sum_img (q : ℚ) (s : SumState) (img : NpImg) :
    (1 ≤ q → img.wf →
      (∀ f, s.sum_final = some f →
        f.shape = img.shape ∧ s.sum_dtype = some img.dtype) →
      SumInv s →
      SumInv (sum_img true (.num q) s img) ∧
      (((sum_img true (.num q) s img).sum_frames.length : ℚ) ≤ q)) ∧
    (∀ n : PyVal, sum_img false n s img = ⟨none, none, []⟩) := by
  constructor
  · intro h1 hwf hmatch hinv
    cases hs : s.sum_final with
    | none =>
        simp only [sum_img, hs, if_true]
        constructor
        · show SumInv ⟨some img.dtype, some ⟨img.shape, img.data⟩, [img]⟩
          simp only [SumInv]
          refine ⟨?_, by simp, hwf, ?_⟩
          · have he : elemSum img.shape.prod [img] =
                addD (zeros img.shape.prod) img.data := rfl
            rw [he, addD_zeros _ _ hwf]
          · intro g hg
            simp only [List.mem_singleton] at hg
            subst hg
            exact hwf
        · simpa using h1
    | some f =>
        obtain ⟨hshape, hdtype⟩ := hmatch f hs
        have hguard : ¬ (q < 1 ∨ f.shape ≠ img.shape ∨
            s.sum_dtype ≠ some img.dtype) := by
          push_neg
          exact ⟨h1, hshape, hdtype⟩
        simp only [SumInv, hs] at hinv
        obtain ⟨hsum, hne, hflen, hall⟩ := hinv
        have himgdl : img.data.length = f.shape.prod := by
          rw [hshape]
          exact hwf
        have hfin1 : addD f.data img.data =
            elemSum f.shape.prod (s.sum_frames ++ [img]) := by
          rw [elemSum_append_one, ← hsum]
        have hall1 : ∀ g ∈ s.sum_frames ++ [img],
            g.data.length = f.shape.prod := by
          intro g hg
          rcases List.mem_append.mp hg with hg' | hg'
          · exact hall g hg'
          · simp only [List.mem_singleton] at hg'
            subst hg'
            exact himgdl
        have hts := trim_spec q f.shape.prod h1 (s.sum_frames ++ [img])
          (addD f.data img.data) (by simp) hfin1 hall1
        obtain ⟨ht1, ht2, ht3, ht4⟩ := hts
        simp only [sum_img, hs, if_true, if_neg hguard]
        constructor
        · show SumInv ⟨s.sum_dtype, some ⟨f.shape, _⟩, _⟩
          simp only [SumInv]
          refine ⟨ht1, ht2, ?_, ht3⟩
          rw [ht1]
          exact elemSum_length _ _ ht3
        · exact ht4
  · intro n; rfl

/-- Witness for C9 starting from the cleared rolling-sum state. -/
theorem C9_sum_img_witness :
    ((1 : ℚ) ≤ 1 ∧ img9.wf ∧
      (∀ f, sum0.sum_final = some f →
        f.shape = img9.shape ∧ sum0.sum_dtype = some img9.dtype) ∧
      SumInv sum0) ∧
    (SumInv (sum_img true (.num 1) sum0 img9) ∧
      (((sum_img true (.num 1) sum0 img9).sum_frames.length : ℚ) ≤ 1)) ∧
    sum_img false (.num 1) sum0 img9 = ⟨none, none, []⟩ :=
  ⟨⟨le_refl 1, rfl, fun _ h => Option.noConfusion h, rfl⟩,
   (C9_sum_img 1 sum0 img9).1 (le_refl 1) rfl (fun _ h => Option.noConfusion h) rfl,
   (C9_sum_img 1 sum0 img9).2 (.num 1)⟩
